import Mathlib

/-!
Verification of the DataSync S3 transfer pipeline.

This file embeds the resumable provisioning pipeline
(`_execDataSyncS3Transfer` and its collaborators) together with the batch
driver (`executeS3DataSyncTransfer` / `executeSingleS3DataSyncTransfer`)
and the completeness check (`checkIncompleteTransfer`).

Remote collaborator calls are modelled by an environment (`Env`) that fixes,
for every stage of one run, whether the call throws or returns a response,
and which identifier field (possibly absent or empty) that response holds.
The pipeline is then a pure function of its arguments, the environment and
the prior state, returning the accumulated `TransferState`, an optional
stage-tagged error, and the ordered trace of remote calls made.
-/

/-- JavaScript truthiness of an optional string field: the field is truthy
iff it is present and not the empty string (`!x` in the source is false). -/
def truthy : Option String → Bool
  | none => false
  | some s => !(s == "")

/-- Outcome of one collaborator call that is expected to return an
identifier: either the call throws, or it resolves with the identifier
field possibly absent (`none`) or present (`some`). -/
inductive CallOutcome where
  | thrown : CallOutcome
  | ok : Option String → CallOutcome
deriving DecidableEq, Repr

/-- The five stages of the pipeline, in their fixed execution order. -/
inductive Stage where
  | policyUpdate : Stage
  | srcLocation : Stage
  | destLocation : Stage
  | taskCreate : Stage
  | taskStart : Stage
deriving DecidableEq, Repr

/-- 1-based position of a stage in the fixed pipeline order. -/
def stageIdx : Stage → Nat
  | .policyUpdate => 1
  | .srcLocation => 2
  | .destLocation => 3
  | .taskCreate => 4
  | .taskStart => 5

/-- Error returned by the pipeline: the underlying collaborator call threw,
or it resolved but the expected identifier field was absent or empty
(the defensive `if (!response...Arn) throw` check in the source). Either
way the error tags the stage at which the run halted. -/
inductive PipelineError where
  | collaborator : Stage → PipelineError
  | malformedResponse : Stage → PipelineError
deriving DecidableEq, Repr

/-- The stage an error tags. -/
def PipelineError.stage : PipelineError → Stage
  | .collaborator s => s
  | .malformedResponse s => s

/-- The AWS service client a remote call is sent through. -/
inductive Client where
  | srcS3Client : Client
  | destS3Client : Client
  | dataSyncClient : Client
deriving DecidableEq, Repr

/-- One remote collaborator call, with the arguments the source passes. -/
inductive Call where
  | updateBucketPolicy : String → String → String → Client → Call
  | createDataSyncLocation : String → String → Client → Call
  | createTask : String → Option String → Option String → String → Client → Call
  | startTask : Option String → Client → Call
deriving DecidableEq, Repr

/-- A trace entry: which stage made which remote call. -/
structure TraceEntry where
  stage : Stage
  call : Call
deriving DecidableEq, Repr

/-- `Partial<DataSyncS3TransferOutput>`: the four optional resource
identifiers accumulated by a run, in stage order. -/
structure TransferState where
  dataSyncSrcLocation : Option String := none
  dataSyncDestLocation : Option String := none
  dataSyncTask : Option String := none
  dataSyncTaskExec : Option String := none
deriving DecidableEq, Repr

/-- The `{ result, error }` pair returned by `_execDataSyncS3Transfer`,
extended with the ordered trace of remote calls the run performed. -/
structure RunResult where
  result : TransferState
  error : Option PipelineError
  trace : List TraceEntry
deriving DecidableEq, Repr

/-- `DataSyncS3TransferOptions` of the resumable revision. -/
structure DataSyncS3TransferOptions where
  initiatingAccount : String
  cloudWatchLogGroup : String
  dataSyncPrincipal : String
  dataSyncRole : String
deriving DecidableEq, Repr

/-- Environment for one pipeline run: the outcome each collaborator call
would have, were it made. `policyUpdate` is a bare success flag because the
source never inspects the policy-update response. -/
structure Env where
  policyUpdate : Bool
  srcLoc : CallOutcome
  destLoc : CallOutcome
  taskCreate : CallOutcome
  taskStart : CallOutcome
deriving DecidableEq, Repr

/-- Final block of `_execDataSyncS3Transfer`: `startTask` on the task id
accumulated in `result`, never skipped; on success the execution ARN is
recorded, on a missing ARN the malformed-response error is returned. -/
def startStep (env : Env) (result : TransferState) (trace : List TraceEntry) : RunResult :=
  let entry : TraceEntry := ⟨Stage.taskStart, Call.startTask result.dataSyncTask Client.dataSyncClient⟩
  match env.taskStart with
  | CallOutcome.thrown =>
    ⟨result, some (PipelineError.collaborator Stage.taskStart), trace ++ [entry]⟩
  | CallOutcome.ok ident =>
    if truthy ident then
      ⟨{ result with dataSyncTaskExec := ident }, none, trace ++ [entry]⟩
    else
      ⟨result, some (PipelineError.malformedResponse Stage.taskStart), trace ++ [entry]⟩

/-- Task-creation block of `_execDataSyncS3Transfer`: reuse
`prevState.dataSyncTask` when truthy, otherwise call `createTask` with the
two accumulated location ARNs, validating that a `TaskArn` came back. -/
def taskStep (taskName : String) (options : DataSyncS3TransferOptions) (env : Env)
    (prevState : TransferState) (result : TransferState) (trace : List TraceEntry) : RunResult :=
  if truthy prevState.dataSyncTask then
    startStep env { result with dataSyncTask := prevState.dataSyncTask } trace
  else
    let entry : TraceEntry :=
      ⟨Stage.taskCreate,
       Call.createTask taskName result.dataSyncSrcLocation result.dataSyncDestLocation
         options.cloudWatchLogGroup Client.dataSyncClient⟩
    match env.taskCreate with
    | CallOutcome.thrown =>
      ⟨result, some (PipelineError.collaborator Stage.taskCreate), trace ++ [entry]⟩
    | CallOutcome.ok ident =>
      if truthy ident then
        startStep env { result with dataSyncTask := ident } (trace ++ [entry])
      else
        ⟨result, some (PipelineError.malformedResponse Stage.taskCreate), trace ++ [entry]⟩

/-- Destination-location block of `_execDataSyncS3Transfer`: reuse
`prevState.dataSyncDestLocation` when truthy, otherwise register the
destination bucket as a DataSync location, validating the `LocationArn`. -/
def destLocStep (taskName destBucket : String) (options : DataSyncS3TransferOptions) (env : Env)
    (prevState : TransferState) (result : TransferState) (trace : List TraceEntry) : RunResult :=
  if truthy prevState.dataSyncDestLocation then
    taskStep taskName options env prevState
      { result with dataSyncDestLocation := prevState.dataSyncDestLocation } trace
  else
    let entry : TraceEntry :=
      ⟨Stage.destLocation,
       Call.createDataSyncLocation ("arn:aws:s3:::" ++ destBucket) options.dataSyncRole
         Client.dataSyncClient⟩
    match env.destLoc with
    | CallOutcome.thrown =>
      ⟨result, some (PipelineError.collaborator Stage.destLocation), trace ++ [entry]⟩
    | CallOutcome.ok ident =>
      if truthy ident then
        taskStep taskName options env prevState
          { result with dataSyncDestLocation := ident } (trace ++ [entry])
      else
        ⟨result, some (PipelineError.malformedResponse Stage.destLocation), trace ++ [entry]⟩

/-- Source-location block of `_execDataSyncS3Transfer`: reuse
`prevState.dataSyncSrcLocation` when truthy, otherwise register the source
bucket as a DataSync location, validating the `LocationArn`. -/
def srcLocStep (taskName srcBucket destBucket : String) (options : DataSyncS3TransferOptions)
    (env : Env) (prevState : TransferState) (result : TransferState)
    (trace : List TraceEntry) : RunResult :=
  if truthy prevState.dataSyncSrcLocation then
    destLocStep taskName destBucket options env prevState
      { result with dataSyncSrcLocation := prevState.dataSyncSrcLocation } trace
  else
    let entry : TraceEntry :=
      ⟨Stage.srcLocation,
       Call.createDataSyncLocation ("arn:aws:s3:::" ++ srcBucket) options.dataSyncRole
         Client.dataSyncClient⟩
    match env.srcLoc with
    | CallOutcome.thrown =>
      ⟨result, some (PipelineError.collaborator Stage.srcLocation), trace ++ [entry]⟩
    | CallOutcome.ok ident =>
      if truthy ident then
        destLocStep taskName destBucket options env prevState
          { result with dataSyncSrcLocation := ident } (trace ++ [entry])
      else
        ⟨result, some (PipelineError.malformedResponse Stage.srcLocation), trace ++ [entry]⟩

/-- `_execDataSyncS3Transfer` of the resumable revision: first the
conditional bucket-policy update (destination bucket through the
destination-account S3 client when `initiatingAccount === 'source'`, source
bucket through the source-account S3 client otherwise), then the four
resource stages in order. -/
def execDataSyncS3Transfer (taskName srcBucket destBucket : String)
    (options : DataSyncS3TransferOptions) (env : Env) (prevState : TransferState) : RunResult :=
  let policyEntry : TraceEntry :=
    if options.initiatingAccount == "source" then
      ⟨Stage.policyUpdate,
       Call.updateBucketPolicy destBucket options.dataSyncPrincipal options.dataSyncRole
         Client.destS3Client⟩
    else
      ⟨Stage.policyUpdate,
       Call.updateBucketPolicy srcBucket options.dataSyncPrincipal options.dataSyncRole
         Client.srcS3Client⟩
  if env.policyUpdate then
    srcLocStep taskName srcBucket destBucket options env prevState {} [policyEntry]
  else
    ⟨{}, some (PipelineError.collaborator Stage.policyUpdate), [policyEntry]⟩

/-- A stage is skipped when the incoming prior state already holds a truthy
identifier for it. The policy update and the task start are never skipped. -/
def stageSkipped (prevState : TransferState) : Stage → Bool
  | .policyUpdate => false
  | .srcLocation => truthy prevState.dataSyncSrcLocation
  | .destLocation => truthy prevState.dataSyncDestLocation
  | .taskCreate => truthy prevState.dataSyncTask
  | .taskStart => false

/-- A collaborator call outcome fails the stage when it throws, or resolves
without a truthy identifier (the validation check then throws). -/
def callFails : CallOutcome → Bool
  | .thrown => true
  | .ok ident => !truthy ident

/-- Whether the environment outcome at a given stage fails that stage. -/
def outcomeFails (env : Env) : Stage → Bool
  | .policyUpdate => !env.policyUpdate
  | .srcLocation => callFails env.srcLoc
  | .destLocation => callFails env.destLoc
  | .taskCreate => callFails env.taskCreate
  | .taskStart => callFails env.taskStart

/-- A stage fails when it is not skipped and its call would fail. -/
def stageFails (prevState : TransferState) (env : Env) (s : Stage) : Bool :=
  !stageSkipped prevState s && outcomeFails env s

/-- The first failing stage of a run, in pipeline order, if any. -/
def firstFailingStage (prevState : TransferState) (env : Env) : Option Stage :=
  [Stage.policyUpdate, Stage.srcLocation, Stage.destLocation,
   Stage.taskCreate, Stage.taskStart].find? (stageFails prevState env)

/-- A stage completes when it is skipped via the prior identifier, or its
call succeeds with a valid identifier. -/
def stageCompleted (prevState : TransferState) (env : Env) (s : Stage) : Bool :=
  stageSkipped prevState s || !outcomeFails env s

/-- Whether a trace contains a call made by the given stage. -/
def hasStage (trace : List TraceEntry) (s : Stage) : Bool :=
  trace.any (fun e => e.stage == s)

/-- The populated identifiers of a state form a contiguous front of the
fixed order: no identifier is truthy unless every earlier one is. -/
def contiguousState (s : TransferState) : Bool :=
  (!truthy s.dataSyncDestLocation || truthy s.dataSyncSrcLocation) &&
  (!truthy s.dataSyncTask || truthy s.dataSyncDestLocation) &&
  (!truthy s.dataSyncTaskExec || truthy s.dataSyncTask)

/-- The identifier a state holds for a given stage (none for the policy
stage, which produces no identifier). -/
def stateField (s : TransferState) : Stage → Option String
  | .policyUpdate => none
  | .srcLocation => s.dataSyncSrcLocation
  | .destLocation => s.dataSyncDestLocation
  | .taskCreate => s.dataSyncTask
  | .taskStart => s.dataSyncTaskExec

/-- The environment outcome of an identifier-producing stage. -/
def idStageOutcome (env : Env) : Stage → Option CallOutcome
  | .policyUpdate => none
  | .srcLocation => some env.srcLoc
  | .destLocation => some env.destLoc
  | .taskCreate => some env.taskCreate
  | .taskStart => some env.taskStart

/-- A run reaches a stage when every earlier stage completed. -/
def reaches (prevState : TransferState) (env : Env) : Stage → Bool
  | .policyUpdate => true
  | .srcLocation => stageCompleted prevState env .policyUpdate
  | .destLocation =>
    stageCompleted prevState env .policyUpdate &&
    stageCompleted prevState env .srcLocation
  | .taskCreate =>
    stageCompleted prevState env .policyUpdate &&
    stageCompleted prevState env .srcLocation &&
    stageCompleted prevState env .destLocation
  | .taskStart =>
    stageCompleted prevState env .policyUpdate &&
    stageCompleted prevState env .srcLocation &&
    stageCompleted prevState env .destLocation &&
    stageCompleted prevState env .taskCreate

/-- A stage is attempted (its collaborator actually called) when the run
reaches it and it is not skipped. -/
def stageAttempted (prevState : TransferState) (env : Env) (s : Stage) : Bool :=
  reaches prevState env s && !stageSkipped prevState s

/-- The identifier a completed stage records: the prior identifier when the
stage is skipped, otherwise the validated identifier of its call; `none`
when the call fails. -/
def stageValue (prevState : TransferState) (env : Env) (s : Stage) : Option String :=
  if stageSkipped prevState s then stateField prevState s
  else
    match idStageOutcome env s with
    | some (CallOutcome.ok v) => if truthy v then v else none
    | _ => none

/-- The error a failing stage produces: a malformed-response error when its
call resolved (without a usable identifier), a wrapped collaborator error
otherwise. -/
def stageError (env : Env) (s : Stage) : PipelineError :=
  match idStageOutcome env s with
  | some (CallOutcome.ok _) => PipelineError.malformedResponse s
  | _ => PipelineError.collaborator s

/-- The single policy-update trace entry of a run: destination bucket via
the destination-account S3 client when the source account initiates, source
bucket via the source-account S3 client otherwise. -/
def policyTraceEntry (srcBucket destBucket : String) (options : DataSyncS3TransferOptions) :
    TraceEntry :=
  if options.initiatingAccount == "source" then
    ⟨Stage.policyUpdate,
     Call.updateBucketPolicy destBucket options.dataSyncPrincipal options.dataSyncRole
       Client.destS3Client⟩
  else
    ⟨Stage.policyUpdate,
     Call.updateBucketPolicy srcBucket options.dataSyncPrincipal options.dataSyncRole
       Client.srcS3Client⟩

/-- Closed form of the state a run returns: a stage identifier is recorded
exactly when the run reaches that stage and the stage completes. -/
def expectedResult (prevState : TransferState) (env : Env) : TransferState :=
  { dataSyncSrcLocation :=
      if reaches prevState env .srcLocation then stageValue prevState env .srcLocation else none
    dataSyncDestLocation :=
      if reaches prevState env .destLocation then stageValue prevState env .destLocation else none
    dataSyncTask :=
      if reaches prevState env .taskCreate then stageValue prevState env .taskCreate else none
    dataSyncTaskExec :=
      if reaches prevState env .taskStart then stageValue prevState env .taskStart else none }

/-- Closed form of the error a run returns: the error of the first failing
stage, if any. -/
def expectedError (prevState : TransferState) (env : Env) : Option PipelineError :=
  (firstFailingStage prevState env).map (stageError env)

/-- Trace entries contributed from the task-start stage on. -/
def traceFromStart (prevState : TransferState) (env : Env) : List TraceEntry :=
  if stageAttempted prevState env .taskStart then
    [⟨Stage.taskStart,
      Call.startTask (stageValue prevState env .taskCreate) Client.dataSyncClient⟩]
  else []

/-- Trace entries contributed from the task-creation stage on. -/
def traceFromTask (taskName : String) (options : DataSyncS3TransferOptions)
    (prevState : TransferState) (env : Env) : List TraceEntry :=
  (if stageAttempted prevState env .taskCreate then
    [⟨Stage.taskCreate,
      Call.createTask taskName (stageValue prevState env .srcLocation)
        (stageValue prevState env .destLocation) options.cloudWatchLogGroup
        Client.dataSyncClient⟩]
   else [])
  ++ traceFromStart prevState env

/-- Trace entries contributed from the destination-location stage on. -/
def traceFromDest (taskName destBucket : String) (options : DataSyncS3TransferOptions)
    (prevState : TransferState) (env : Env) : List TraceEntry :=
  (if stageAttempted prevState env .destLocation then
    [⟨Stage.destLocation,
      Call.createDataSyncLocation ("arn:aws:s3:::" ++ destBucket) options.dataSyncRole
        Client.dataSyncClient⟩]
   else [])
  ++ traceFromTask taskName options prevState env

/-- Trace entries contributed from the source-location stage on. -/
def traceFromSrc (taskName srcBucket destBucket : String)
    (options : DataSyncS3TransferOptions) (prevState : TransferState) (env : Env) :
    List TraceEntry :=
  (if stageAttempted prevState env .srcLocation then
    [⟨Stage.srcLocation,
      Call.createDataSyncLocation ("arn:aws:s3:::" ++ srcBucket) options.dataSyncRole
        Client.dataSyncClient⟩]
   else [])
  ++ traceFromDest taskName destBucket options prevState env

/-- Closed form of the trace of a run: the policy-update call, followed by
one call for each identifier stage the run reaches and does not skip. -/
def expectedTrace (taskName srcBucket destBucket : String)
    (options : DataSyncS3TransferOptions) (prevState : TransferState) (env : Env) :
    List TraceEntry :=
  policyTraceEntry srcBucket destBucket options
    :: traceFromSrc taskName srcBucket destBucket options prevState env

lemma stageFails_eq_false_of_completed (prevState : TransferState) (env : Env) (s : Stage)
    (h : stageCompleted prevState env s = true) : stageFails prevState env s = false := by
  simp only [stageCompleted, Bool.or_eq_true, Bool.not_eq_true'] at h
  rcases h with h | h <;> simp [stageFails, h]

lemma firstFailingStage_of_completed4 (prevState : TransferState) (env : Env)
    (fp : stageFails prevState env .policyUpdate = false)
    (fs : stageFails prevState env .srcLocation = false)
    (fd : stageFails prevState env .destLocation = false)
    (ft : stageFails prevState env .taskCreate = false) :
    firstFailingStage prevState env
      = if stageFails prevState env .taskStart = true then some Stage.taskStart
        else none := by
  unfold firstFailingStage
  rw [List.find?_cons_of_neg _ (by simp [fp]), List.find?_cons_of_neg _ (by simp [fs]),
      List.find?_cons_of_neg _ (by simp [fd]), List.find?_cons_of_neg _ (by simp [ft])]
  by_cases hf : stageFails prevState env .taskStart = true
  · rw [List.find?_cons_of_pos _ (by simp [hf])]
    simp [hf]
  · rw [List.find?_cons_of_neg _ (by simp [hf])]
    simp [hf]

lemma firstFailingStage_policy (prevState : TransferState) (env : Env)
    (hf : stageFails prevState env .policyUpdate = true) :
    firstFailingStage prevState env = some Stage.policyUpdate := by
  unfold firstFailingStage
  rw [List.find?_cons_of_pos _ (by simp [hf])]

lemma firstFailingStage_src (prevState : TransferState) (env : Env)
    (fp : stageFails prevState env .policyUpdate = false)
    (hf : stageFails prevState env .srcLocation = true) :
    firstFailingStage prevState env = some Stage.srcLocation := by
  unfold firstFailingStage
  rw [List.find?_cons_of_neg _ (by simp [fp]), List.find?_cons_of_pos _ (by simp [hf])]

lemma firstFailingStage_dest (prevState : TransferState) (env : Env)
    (fp : stageFails prevState env .policyUpdate = false)
    (fs : stageFails prevState env .srcLocation = false)
    (hf : stageFails prevState env .destLocation = true) :
    firstFailingStage prevState env = some Stage.destLocation := by
  unfold firstFailingStage
  rw [List.find?_cons_of_neg _ (by simp [fp]), List.find?_cons_of_neg _ (by simp [fs]),
      List.find?_cons_of_pos _ (by simp [hf])]

lemma firstFailingStage_task (prevState : TransferState) (env : Env)
    (fp : stageFails prevState env .policyUpdate = false)
    (fs : stageFails prevState env .srcLocation = false)
    (fd : stageFails prevState env .destLocation = false)
    (hf : stageFails prevState env .taskCreate = true) :
    firstFailingStage prevState env = some Stage.taskCreate := by
  unfold firstFailingStage
  rw [List.find?_cons_of_neg _ (by simp [fp]), List.find?_cons_of_neg _ (by simp [fs]),
      List.find?_cons_of_neg _ (by simp [fd]), List.find?_cons_of_pos _ (by simp [hf])]

lemma startStep_char (env : Env) (prevState : TransferState) (tr : List TraceEntry)
    (h : reaches prevState env Stage.taskStart = true) :
    startStep env
      ⟨stageValue prevState env .srcLocation, stageValue prevState env .destLocation,
       stageValue prevState env .taskCreate, none⟩ tr
      = ⟨expectedResult prevState env, expectedError prevState env,
         tr ++ traceFromStart prevState env⟩ := by
  simp only [reaches, Bool.and_eq_true] at h
  obtain ⟨⟨⟨hp, hs⟩, hd⟩, ht⟩ := h
  have fp := stageFails_eq_false_of_completed _ _ _ hp
  have fs := stageFails_eq_false_of_completed _ _ _ hs
  have fd := stageFails_eq_false_of_completed _ _ _ hd
  have ft := stageFails_eq_false_of_completed _ _ _ ht
  have hff := firstFailingStage_of_completed4 _ _ fp fs fd ft
  rcases hts : env.taskStart with _ | v
  · have hfl : stageFails prevState env .taskStart = true := by
      simp [stageFails, stageSkipped, outcomeFails, callFails, hts]
    simp [startStep, hts, expectedResult, expectedError, hff, hfl,
      stageError, idStageOutcome, traceFromStart, stageAttempted,
      reaches, hp, hs, hd, ht, stageValue, stageSkipped]
  · by_cases hv : truthy v = true
    · have hfl : stageFails prevState env .taskStart = false := by
        simp [stageFails, stageSkipped, outcomeFails, callFails, hts, hv]
      simp [startStep, hts, hv, expectedResult, expectedError, hff, hfl,
        stageError, idStageOutcome, traceFromStart, stageAttempted,
        reaches, hp, hs, hd, ht, stageValue, stageSkipped]
    · simp only [Bool.not_eq_true] at hv
      have hfl : stageFails prevState env .taskStart = true := by
        simp [stageFails, stageSkipped, outcomeFails, callFails, hts, hv]
      simp [startStep, hts, hv, expectedResult, expectedError, hff, hfl,
        stageError, idStageOutcome, traceFromStart, stageAttempted,
        reaches, hp, hs, hd, ht, stageValue, stageSkipped]

lemma taskStep_char (taskName : String) (options : DataSyncS3TransferOptions) (env : Env)
    (prevState : TransferState) (tr : List TraceEntry)
    (h : reaches prevState env Stage.taskCreate = true) :
    taskStep taskName options env prevState
      ⟨stageValue prevState env .srcLocation, stageValue prevState env .destLocation,
       none, none⟩ tr
      = ⟨expectedResult prevState env, expectedError prevState env,
         tr ++ traceFromTask taskName options prevState env⟩ := by
  simp only [reaches, Bool.and_eq_true] at h
  obtain ⟨⟨hp, hs⟩, hd⟩ := h
  have fp := stageFails_eq_false_of_completed _ _ _ hp
  have fs := stageFails_eq_false_of_completed _ _ _ hs
  have fd := stageFails_eq_false_of_completed _ _ _ hd
  have hrS : reaches prevState env Stage.srcLocation = true := by simp [reaches, hp]
  have hrD : reaches prevState env Stage.destLocation = true := by simp [reaches, hp, hs]
  have hrT : reaches prevState env Stage.taskCreate = true := by simp [reaches, hp, hs, hd]
  by_cases hskip : truthy prevState.dataSyncTask = true
  · have hct : stageCompleted prevState env .taskCreate = true := by
      simp [stageCompleted, stageSkipped, hskip]
    have hreach : reaches prevState env .taskStart = true := by
      simp [reaches, hp, hs, hd, hct]
    have hsv : stageValue prevState env .taskCreate = prevState.dataSyncTask := by
      simp [stageValue, stageSkipped, hskip, stateField]
    have happ : traceFromTask taskName options prevState env = traceFromStart prevState env := by
      simp [traceFromTask, stageAttempted, stageSkipped, hskip]
    unfold taskStep
    rw [if_pos hskip]
    show startStep env
      ⟨stageValue prevState env .srcLocation, stageValue prevState env .destLocation,
       prevState.dataSyncTask, none⟩ tr = _
    rw [← hsv, startStep_char _ _ _ hreach, happ]
  · simp only [Bool.not_eq_true] at hskip
    have haT : stageAttempted prevState env Stage.taskCreate = true := by
      simp [stageAttempted, hrT, stageSkipped, hskip]
    rcases htc : env.taskCreate with _ | v
    · have hcf : stageCompleted prevState env Stage.taskCreate = false := by
        simp [stageCompleted, stageSkipped, hskip, outcomeFails, callFails, htc]
      have hrX : reaches prevState env Stage.taskStart = false := by
        simp [reaches, hcf]
      have haX : stageAttempted prevState env Stage.taskStart = false := by
        simp [stageAttempted, hrX]
      have hsvT : stageValue prevState env Stage.taskCreate = none := by
        simp [stageValue, stageSkipped, hskip, idStageOutcome, htc]
      have hfl : stageFails prevState env .taskCreate = true := by
        simp [stageFails, stageSkipped, outcomeFails, callFails, htc, hskip]
      have hff := firstFailingStage_task _ _ fp fs fd hfl
      simp [taskStep, hskip, htc, expectedResult, expectedError, hff, stageError,
        idStageOutcome, hrS, hrD, hrT, hrX, haT, haX, hsvT, traceFromTask, traceFromStart]
    · by_cases hv : truthy v = true
      · have hct : stageCompleted prevState env .taskCreate = true := by
          simp [stageCompleted, stageSkipped, outcomeFails, callFails, htc, hv]
        have hreach : reaches prevState env .taskStart = true := by
          simp [reaches, hp, hs, hd, hct]
        have hsv : stageValue prevState env .taskCreate = v := by
          simp [stageValue, stageSkipped, hskip, idStageOutcome, htc, hv]
        simp only [taskStep]
        rw [if_neg (by simp [hskip]), htc]
        simp only [hv, if_true, ite_true]
        show startStep env
          ⟨stageValue prevState env .srcLocation, stageValue prevState env .destLocation,
           v, none⟩ _ = _
        rw [← hsv, startStep_char _ _ _ hreach]
        simp [traceFromTask, haT, hsv, List.append_assoc]
      · simp only [Bool.not_eq_true] at hv
        have hcf : stageCompleted prevState env Stage.taskCreate = false := by
          simp [stageCompleted, stageSkipped, hskip, outcomeFails, callFails, htc, hv]
        have hrX : reaches prevState env Stage.taskStart = false := by
          simp [reaches, hcf]
        have haX : stageAttempted prevState env Stage.taskStart = false := by
          simp [stageAttempted, hrX]
        have hsvT : stageValue prevState env Stage.taskCreate = none := by
          simp [stageValue, stageSkipped, hskip, idStageOutcome, htc, hv]
        have hfl : stageFails prevState env .taskCreate = true := by
          simp [stageFails, stageSkipped, outcomeFails, callFails, htc, hskip, hv]
        have hff := firstFailingStage_task _ _ fp fs fd hfl
        simp [taskStep, hskip, htc, hv, expectedResult, expectedError, hff, stageError,
          idStageOutcome, hrS, hrD, hrT, hrX, haT, haX, hsvT, traceFromTask, traceFromStart]

lemma destLocStep_char (taskName destBucket : String) (options : DataSyncS3TransferOptions)
    (env : Env) (prevState : TransferState) (tr : List TraceEntry)
    (h : reaches prevState env Stage.destLocation = true) :
    destLocStep taskName destBucket options env prevState
      ⟨stageValue prevState env .srcLocation, none, none, none⟩ tr
      = ⟨expectedResult prevState env, expectedError prevState env,
         tr ++ traceFromDest taskName destBucket options prevState env⟩ := by
  simp only [reaches, Bool.and_eq_true] at h
  obtain ⟨hp, hs⟩ := h
  have fp := stageFails_eq_false_of_completed _ _ _ hp
  have fs := stageFails_eq_false_of_completed _ _ _ hs
  have hrS : reaches prevState env Stage.srcLocation = true := by simp [reaches, hp]
  have hrD : reaches prevState env Stage.destLocation = true := by simp [reaches, hp, hs]
  by_cases hskip : truthy prevState.dataSyncDestLocation = true
  · have hcd : stageCompleted prevState env .destLocation = true := by
      simp [stageCompleted, stageSkipped, hskip]
    have hreach : reaches prevState env .taskCreate = true := by
      simp [reaches, hp, hs, hcd]
    have hsv : stageValue prevState env .destLocation = prevState.dataSyncDestLocation := by
      simp [stageValue, stageSkipped, hskip, stateField]
    have happ : traceFromDest taskName destBucket options prevState env
        = traceFromTask taskName options prevState env := by
      simp [traceFromDest, stageAttempted, stageSkipped, hskip]
    unfold destLocStep
    rw [if_pos hskip]
    show taskStep taskName options env prevState
      ⟨stageValue prevState env .srcLocation, prevState.dataSyncDestLocation, none, none⟩ tr = _
    rw [← hsv, taskStep_char _ _ _ _ _ hreach, happ]
  · simp only [Bool.not_eq_true] at hskip
    have haD : stageAttempted prevState env Stage.destLocation = true := by
      simp [stageAttempted, hrD, stageSkipped, hskip]
    rcases hdl : env.destLoc with _ | v
    · have hcf : stageCompleted prevState env Stage.destLocation = false := by
        simp [stageCompleted, stageSkipped, hskip, outcomeFails, callFails, hdl]
      have hrT : reaches prevState env Stage.taskCreate = false := by
        simp [reaches, hcf]
      have hrX : reaches prevState env Stage.taskStart = false := by
        simp [reaches, hcf]
      have haT : stageAttempted prevState env Stage.taskCreate = false := by
        simp [stageAttempted, hrT]
      have haX : stageAttempted prevState env Stage.taskStart = false := by
        simp [stageAttempted, hrX]
      have hsvD : stageValue prevState env Stage.destLocation = none := by
        simp [stageValue, stageSkipped, hskip, idStageOutcome, hdl]
      have hfl : stageFails prevState env .destLocation = true := by
        simp [stageFails, stageSkipped, outcomeFails, callFails, hdl, hskip]
      have hff := firstFailingStage_dest _ _ fp fs hfl
      simp [destLocStep, hskip, hdl, expectedResult, expectedError, hff, stageError,
        idStageOutcome, hrS, hrD, hrT, hrX, haD, haT, haX, hsvD,
        traceFromDest, traceFromTask, traceFromStart]
    · by_cases hv : truthy v = true
      · have hcd : stageCompleted prevState env .destLocation = true := by
          simp [stageCompleted, stageSkipped, outcomeFails, callFails, hdl, hv]
        have hreach : reaches prevState env .taskCreate = true := by
          simp [reaches, hp, hs, hcd]
        have hsv : stageValue prevState env .destLocation = v := by
          simp [stageValue, stageSkipped, hskip, idStageOutcome, hdl, hv]
        simp only [destLocStep]
        rw [if_neg (by simp [hskip]), hdl]
        simp only [hv, if_true, ite_true]
        show taskStep taskName options env prevState
          ⟨stageValue prevState env .srcLocation, v, none, none⟩ _ = _
        rw [← hsv, taskStep_char _ _ _ _ _ hreach]
        simp [traceFromDest, haD, hsv, List.append_assoc]
      · simp only [Bool.not_eq_true] at hv
        have hcf : stageCompleted prevState env Stage.destLocation = false := by
          simp [stageCompleted, stageSkipped, hskip, outcomeFails, callFails, hdl, hv]
        have hrT : reaches prevState env Stage.taskCreate = false := by
          simp [reaches, hcf]
        have hrX : reaches prevState env Stage.taskStart = false := by
          simp [reaches, hcf]
        have haT : stageAttempted prevState env Stage.taskCreate = false := by
          simp [stageAttempted, hrT]
        have haX : stageAttempted prevState env Stage.taskStart = false := by
          simp [stageAttempted, hrX]
        have hsvD : stageValue prevState env Stage.destLocation = none := by
          simp [stageValue, stageSkipped, hskip, idStageOutcome, hdl, hv]
        have hfl : stageFails prevState env .destLocation = true := by
          simp [stageFails, stageSkipped, outcomeFails, callFails, hdl, hskip, hv]
        have hff := firstFailingStage_dest _ _ fp fs hfl
        simp [destLocStep, hskip, hdl, hv, expectedResult, expectedError, hff, stageError,
          idStageOutcome, hrS, hrD, hrT, hrX, haD, haT, haX, hsvD,
          traceFromDest, traceFromTask, traceFromStart]

lemma srcLocStep_char (taskName srcBucket destBucket : String)
    (options : DataSyncS3TransferOptions) (env : Env) (prevState : TransferState)
    (tr : List TraceEntry)
    (h : reaches prevState env Stage.srcLocation = true) :
    srcLocStep taskName srcBucket destBucket options env prevState ⟨none, none, none, none⟩ tr
      = ⟨expectedResult prevState env, expectedError prevState env,
         tr ++ traceFromSrc taskName srcBucket destBucket options prevState env⟩ := by
  simp only [reaches] at h
  have hp := h
  have fp := stageFails_eq_false_of_completed _ _ _ hp
  have hrS : reaches prevState env Stage.srcLocation = true := by simp [reaches, hp]
  by_cases hskip : truthy prevState.dataSyncSrcLocation = true
  · have hcs : stageCompleted prevState env .srcLocation = true := by
      simp [stageCompleted, stageSkipped, hskip]
    have hreach : reaches prevState env .destLocation = true := by
      simp [reaches, hp, hcs]
    have hsv : stageValue prevState env .srcLocation = prevState.dataSyncSrcLocation := by
      simp [stageValue, stageSkipped, hskip, stateField]
    have happ : traceFromSrc taskName srcBucket destBucket options prevState env
        = traceFromDest taskName destBucket options prevState env := by
      simp [traceFromSrc, stageAttempted, stageSkipped, hskip]
    unfold srcLocStep
    rw [if_pos hskip]
    show destLocStep taskName destBucket options env prevState
      ⟨prevState.dataSyncSrcLocation, none, none, none⟩ tr = _
    rw [← hsv, destLocStep_char _ _ _ _ _ _ hreach, happ]
  · simp only [Bool.not_eq_true] at hskip
    have haS : stageAttempted prevState env Stage.srcLocation = true := by
      simp [stageAttempted, hrS, stageSkipped, hskip]
    rcases hsl : env.srcLoc with _ | v
    · have hcf : stageCompleted prevState env Stage.srcLocation = false := by
        simp [stageCompleted, stageSkipped, hskip, outcomeFails, callFails, hsl]
      have hrD : reaches prevState env Stage.destLocation = false := by
        simp [reaches, hcf]
      have hrT : reaches prevState env Stage.taskCreate = false := by
        simp [reaches, hcf]
      have hrX : reaches prevState env Stage.taskStart = false := by
        simp [reaches, hcf]
      have haD : stageAttempted prevState env Stage.destLocation = false := by
        simp [stageAttempted, hrD]
      have haT : stageAttempted prevState env Stage.taskCreate = false := by
        simp [stageAttempted, hrT]
      have haX : stageAttempted prevState env Stage.taskStart = false := by
        simp [stageAttempted, hrX]
      have hsvS : stageValue prevState env Stage.srcLocation = none := by
        simp [stageValue, stageSkipped, hskip, idStageOutcome, hsl]
      have hfl : stageFails prevState env .srcLocation = true := by
        simp [stageFails, stageSkipped, outcomeFails, callFails, hsl, hskip]
      have hff := firstFailingStage_src _ _ fp hfl
      simp [srcLocStep, hskip, hsl, expectedResult, expectedError, hff, stageError,
        idStageOutcome, hrS, hrD, hrT, hrX, haS, haD, haT, haX, hsvS,
        traceFromSrc, traceFromDest, traceFromTask, traceFromStart]
    · by_cases hv : truthy v = true
      · have hcs : stageCompleted prevState env .srcLocation = true := by
          simp [stageCompleted, stageSkipped, outcomeFails, callFails, hsl, hv]
        have hreach : reaches prevState env .destLocation = true := by
          simp [reaches, hp, hcs]
        have hsv : stageValue prevState env .srcLocation = v := by
          simp [stageValue, stageSkipped, hskip, idStageOutcome, hsl, hv]
        simp only [srcLocStep]
        rw [if_neg (by simp [hskip]), hsl]
        simp only [hv, if_true, ite_true]
        show destLocStep taskName destBucket options env prevState
          ⟨v, none, none, none⟩ _ = _
        rw [← hsv, destLocStep_char _ _ _ _ _ _ hreach]
        simp [traceFromSrc, haS, hsv, List.append_assoc]
      · simp only [Bool.not_eq_true] at hv
        have hcf : stageCompleted prevState env Stage.srcLocation = false := by
          simp [stageCompleted, stageSkipped, hskip, outcomeFails, callFails, hsl, hv]
        have hrD : reaches prevState env Stage.destLocation = false := by
          simp [reaches, hcf]
        have hrT : reaches prevState env Stage.taskCreate = false := by
          simp [reaches, hcf]
        have hrX : reaches prevState env Stage.taskStart = false := by
          simp [reaches, hcf]
        have haD : stageAttempted prevState env Stage.destLocation = false := by
          simp [stageAttempted, hrD]
        have haT : stageAttempted prevState env Stage.taskCreate = false := by
          simp [stageAttempted, hrT]
        have haX : stageAttempted prevState env Stage.taskStart = false := by
          simp [stageAttempted, hrX]
        have hsvS : stageValue prevState env Stage.srcLocation = none := by
          simp [stageValue, stageSkipped, hskip, idStageOutcome, hsl, hv]
        have hfl : stageFails prevState env .srcLocation = true := by
          simp [stageFails, stageSkipped, outcomeFails, callFails, hsl, hskip, hv]
        have hff := firstFailingStage_src _ _ fp hfl
        simp [srcLocStep, hskip, hsl, hv, expectedResult, expectedError, hff, stageError,
          idStageOutcome, hrS, hrD, hrT, hrX, haS, haD, haT, haX, hsvS,
          traceFromSrc, traceFromDest, traceFromTask, traceFromStart]

/-- Master characterization: a run of the pipeline returns exactly the
closed-form state, error and call trace. -/
lemma execDataSyncS3Transfer_char (taskName srcBucket destBucket : String)
    (options : DataSyncS3TransferOptions) (env : Env) (prevState : TransferState) :
    execDataSyncS3Transfer taskName srcBucket destBucket options env prevState
      = ⟨expectedResult prevState env, expectedError prevState env,
         expectedTrace taskName srcBucket destBucket options prevState env⟩ := by
  rcases hpol : env.policyUpdate with _ | _
  · have hcf : stageCompleted prevState env Stage.policyUpdate = false := by
      simp [stageCompleted, stageSkipped, outcomeFails, hpol]
    have hrS : reaches prevState env Stage.srcLocation = false := by simp [reaches, hcf]
    have hrD : reaches prevState env Stage.destLocation = false := by simp [reaches, hcf]
    have hrT : reaches prevState env Stage.taskCreate = false := by simp [reaches, hcf]
    have hrX : reaches prevState env Stage.taskStart = false := by simp [reaches, hcf]
    have haS : stageAttempted prevState env Stage.srcLocation = false := by
      simp [stageAttempted, hrS]
    have haD : stageAttempted prevState env Stage.destLocation = false := by
      simp [stageAttempted, hrD]
    have haT : stageAttempted prevState env Stage.taskCreate = false := by
      simp [stageAttempted, hrT]
    have haX : stageAttempted prevState env Stage.taskStart = false := by
      simp [stageAttempted, hrX]
    have hfl : stageFails prevState env .policyUpdate = true := by
      simp [stageFails, stageSkipped, outcomeFails, hpol]
    have hff := firstFailingStage_policy _ _ hfl
    simp [execDataSyncS3Transfer, hpol, expectedResult, expectedError, hff, stageError,
      idStageOutcome, hrS, hrD, hrT, hrX, haS, haD, haT, haX, policyTraceEntry,
      expectedTrace, traceFromSrc, traceFromDest, traceFromTask, traceFromStart]
  · have hcp : stageCompleted prevState env Stage.policyUpdate = true := by
      simp [stageCompleted, stageSkipped, outcomeFails, hpol]
    have hreach : reaches prevState env Stage.srcLocation = true := by
      simp [reaches, hcp]
    unfold execDataSyncS3Transfer
    rw [if_pos hpol]
    show srcLocStep taskName srcBucket destBucket options env prevState ⟨none, none, none, none⟩
      [policyTraceEntry srcBucket destBucket options] = _
    rw [srcLocStep_char _ _ _ _ _ _ _ hreach]
    simp [expectedTrace]

lemma stageCompleted_eq_not_fails (prevState : TransferState) (env : Env) (s : Stage) :
    stageCompleted prevState env s = !stageFails prevState env s := by
  simp [stageCompleted, stageFails, Bool.not_and, Bool.not_not]

lemma stageError_stage (env : Env) (s : Stage) :
    (stageError env s).stage = s := by
  unfold stageError
  rcases idStageOutcome env s with _ | o
  · rfl
  · rcases o <;> rfl

lemma stageValue_none_of_fails (prevState : TransferState) (env : Env) (s : Stage)
    (h : stageFails prevState env s = true) : stageValue prevState env s = none := by
  simp only [stageFails, Bool.and_eq_true, Bool.not_eq_true'] at h
  obtain ⟨hsk, hout⟩ := h
  cases s
  · simp [stageValue, stageSkipped, idStageOutcome]
  · simp only [outcomeFails] at hout
    rcases ho : env.srcLoc with _ | v <;> rw [ho] at hout <;>
      simp_all [stageValue, stageSkipped, idStageOutcome, callFails, Bool.not_eq_true']
  · simp only [outcomeFails] at hout
    rcases ho : env.destLoc with _ | v <;> rw [ho] at hout <;>
      simp_all [stageValue, stageSkipped, idStageOutcome, callFails, Bool.not_eq_true']
  · simp only [outcomeFails] at hout
    rcases ho : env.taskCreate with _ | v <;> rw [ho] at hout <;>
      simp_all [stageValue, stageSkipped, idStageOutcome, callFails, Bool.not_eq_true']
  · simp only [outcomeFails] at hout
    rcases ho : env.taskStart with _ | v <;> rw [ho] at hout <;>
      simp_all [stageValue, stageSkipped, idStageOutcome, callFails, Bool.not_eq_true']

lemma truthy_stageValue_src (prevState : TransferState) (env : Env)
    (h : stageCompleted prevState env Stage.srcLocation = true) :
    truthy (stageValue prevState env Stage.srcLocation) = true := by
  by_cases hsk : truthy prevState.dataSyncSrcLocation = true
  · simp [stageValue, stageSkipped, hsk, stateField]
  · simp only [Bool.not_eq_true] at hsk
    simp only [stageCompleted, stageSkipped, hsk, outcomeFails, Bool.or_eq_true,
      Bool.not_eq_true', Bool.false_eq_true, false_or] at h
    rcases ho : env.srcLoc with _ | v
    · rw [ho] at h
      simp [callFails] at h
    · rw [ho] at h
      have h2 : truthy v = true := by
        cases htv : truthy v
        · simp [callFails, htv] at h
        · rfl
      simp [stageValue, stageSkipped, hsk, idStageOutcome, ho, h2]

lemma truthy_stageValue_dest (prevState : TransferState) (env : Env)
    (h : stageCompleted prevState env Stage.destLocation = true) :
    truthy (stageValue prevState env Stage.destLocation) = true := by
  by_cases hsk : truthy prevState.dataSyncDestLocation = true
  · simp [stageValue, stageSkipped, hsk, stateField]
  · simp only [Bool.not_eq_true] at hsk
    simp only [stageCompleted, stageSkipped, hsk, outcomeFails, Bool.or_eq_true,
      Bool.not_eq_true', Bool.false_eq_true, false_or] at h
    rcases ho : env.destLoc with _ | v
    · rw [ho] at h
      simp [callFails] at h
    · rw [ho] at h
      have h2 : truthy v = true := by
        cases htv : truthy v
        · simp [callFails, htv] at h
        · rfl
      simp [stageValue, stageSkipped, hsk, idStageOutcome, ho, h2]

lemma truthy_stageValue_task (prevState : TransferState) (env : Env)
    (h : stageCompleted prevState env Stage.taskCreate = true) :
    truthy (stageValue prevState env Stage.taskCreate) = true := by
  by_cases hsk : truthy prevState.dataSyncTask = true
  · simp [stageValue, stageSkipped, hsk, stateField]
  · simp only [Bool.not_eq_true] at hsk
    simp only [stageCompleted, stageSkipped, hsk, outcomeFails, Bool.or_eq_true,
      Bool.not_eq_true', Bool.false_eq_true, false_or] at h
    rcases ho : env.taskCreate with _ | v
    · rw [ho] at h
      simp [callFails] at h
    · rw [ho] at h
      have h2 : truthy v = true := by
        cases htv : truthy v
        · simp [callFails, htv] at h
        · rfl
      simp [stageValue, stageSkipped, hsk, idStageOutcome, ho, h2]

lemma expectedResult_contiguous (prevState : TransferState) (env : Env) :
    contiguousState (expectedResult prevState env) = true := by
  unfold contiguousState expectedResult
  simp only [Bool.and_eq_true, Bool.or_eq_true, Bool.not_eq_true']
  refine ⟨⟨?_, ?_⟩, ?_⟩
  · by_cases hr : reaches prevState env Stage.destLocation = true
    · have h := hr
      simp only [reaches, Bool.and_eq_true] at h
      obtain ⟨hp, hs⟩ := h
      have hrs : reaches prevState env Stage.srcLocation = true := by simp [reaches, hp]
      right
      simp [hrs, truthy_stageValue_src prevState env hs]
    · simp only [Bool.not_eq_true] at hr
      left
      simp [hr, truthy]
  · by_cases hr : reaches prevState env Stage.taskCreate = true
    · have h := hr
      simp only [reaches, Bool.and_eq_true] at h
      obtain ⟨⟨hp, hs⟩, hd⟩ := h
      have hrd : reaches prevState env Stage.destLocation = true := by simp [reaches, hp, hs]
      right
      simp [hrd, truthy_stageValue_dest prevState env hd]
    · simp only [Bool.not_eq_true] at hr
      left
      simp [hr, truthy]
  · by_cases hr : reaches prevState env Stage.taskStart = true
    · have h := hr
      simp only [reaches, Bool.and_eq_true] at h
      obtain ⟨⟨⟨hp, hs⟩, hd⟩, ht⟩ := h
      have hrt : reaches prevState env Stage.taskCreate = true := by simp [reaches, hp, hs, hd]
      right
      simp [hrt, truthy_stageValue_task prevState env ht]
    · simp only [Bool.not_eq_true] at hr
      left
      simp [hr, truthy]

lemma mem_ite_entry {e t : TraceEntry} {b : Bool}
    (h : t ∈ (if b = true then [e] else [])) : b = true ∧ t = e := by
  rcases hb : b
  · rw [hb] at h
    simp at h
  · rw [hb] at h
    simp at h
    exact ⟨rfl, h⟩

lemma firstFailingStage_inv (prevState : TransferState) (env : Env) (s : Stage)
    (h : firstFailingStage prevState env = some s) :
    stageFails prevState env s = true
    ∧ ∀ t : Stage, stageIdx t < stageIdx s → stageCompleted prevState env t = true := by
  unfold firstFailingStage at h
  rcases h1 : stageFails prevState env .policyUpdate with _ | _
  · rw [List.find?_cons_of_neg _ (by simp [h1])] at h
    rcases h2 : stageFails prevState env .srcLocation with _ | _
    · rw [List.find?_cons_of_neg _ (by simp [h2])] at h
      rcases h3 : stageFails prevState env .destLocation with _ | _
      · rw [List.find?_cons_of_neg _ (by simp [h3])] at h
        rcases h4 : stageFails prevState env .taskCreate with _ | _
        · rw [List.find?_cons_of_neg _ (by simp [h4])] at h
          rcases h5 : stageFails prevState env .taskStart with _ | _
          · rw [List.find?_cons_of_neg _ (by simp [h5])] at h
            simp at h
          · rw [List.find?_cons_of_pos _ (by simp [h5])] at h
            obtain rfl : Stage.taskStart = s := by simpa using h
            refine ⟨h5, ?_⟩
            intro t ht
            cases t <;> simp_all [stageIdx, stageCompleted_eq_not_fails]
        · rw [List.find?_cons_of_pos _ (by simp [h4])] at h
          obtain rfl : Stage.taskCreate = s := by simpa using h
          refine ⟨h4, ?_⟩
          intro t ht
          cases t <;> simp_all [stageIdx, stageCompleted_eq_not_fails]
      · rw [List.find?_cons_of_pos _ (by simp [h3])] at h
        obtain rfl : Stage.destLocation = s := by simpa using h
        refine ⟨h3, ?_⟩
        intro t ht
        cases t <;> simp_all [stageIdx, stageCompleted_eq_not_fails]
    · rw [List.find?_cons_of_pos _ (by simp [h2])] at h
      obtain rfl : Stage.srcLocation = s := by simpa using h
      refine ⟨h2, ?_⟩
      intro t ht
      cases t <;> simp_all [stageIdx, stageCompleted_eq_not_fails]
  · rw [List.find?_cons_of_pos _ (by simp [h1])] at h
    obtain rfl : Stage.policyUpdate = s := by simpa using h
    refine ⟨h1, ?_⟩
    intro t ht
    cases t <;> simp_all [stageIdx]

/-- The policy-update calls of a trace. -/
def policyCalls (trace : List TraceEntry) : List TraceEntry :=
  trace.filter (fun e => e.stage == Stage.policyUpdate)

lemma policyTraceEntry_stage (srcBucket destBucket : String)
    (options : DataSyncS3TransferOptions) :
    (policyTraceEntry srcBucket destBucket options).stage = Stage.policyUpdate := by
  unfold policyTraceEntry
  split_ifs <;> rfl

lemma policyCalls_traceFromSrc (taskName srcBucket destBucket : String)
    (options : DataSyncS3TransferOptions) (prevState : TransferState) (env : Env) :
    policyCalls (traceFromSrc taskName srcBucket destBucket options prevState env) = [] := by
  unfold policyCalls traceFromSrc traceFromDest traceFromTask traceFromStart
  split_ifs <;> simp

lemma policyCalls_expectedTrace (taskName srcBucket destBucket : String)
    (options : DataSyncS3TransferOptions) (prevState : TransferState) (env : Env) :
    policyCalls (expectedTrace taskName srcBucket destBucket options prevState env)
      = [policyTraceEntry srcBucket destBucket options] := by
  have hx : (policyTraceEntry srcBucket destBucket options).stage = Stage.policyUpdate := by
    unfold policyTraceEntry
    split_ifs <;> rfl
  have ht := policyCalls_traceFromSrc taskName srcBucket destBucket options prevState env
  unfold policyCalls at ht ⊢
  unfold expectedTrace
  rw [List.filter_cons]
  simp [hx, ht]

lemma hasStage_expectedTrace_src (taskName srcBucket destBucket : String)
    (options : DataSyncS3TransferOptions) (prevState : TransferState) (env : Env) :
    hasStage (expectedTrace taskName srcBucket destBucket options prevState env)
        Stage.srcLocation
      = stageAttempted prevState env Stage.srcLocation := by
  unfold expectedTrace traceFromSrc traceFromDest traceFromTask traceFromStart hasStage
    policyTraceEntry
  split_ifs <;> simp_all

lemma hasStage_expectedTrace_dest (taskName srcBucket destBucket : String)
    (options : DataSyncS3TransferOptions) (prevState : TransferState) (env : Env) :
    hasStage (expectedTrace taskName srcBucket destBucket options prevState env)
        Stage.destLocation
      = stageAttempted prevState env Stage.destLocation := by
  unfold expectedTrace traceFromSrc traceFromDest traceFromTask traceFromStart hasStage
    policyTraceEntry
  split_ifs <;> simp_all

lemma hasStage_expectedTrace_task (taskName srcBucket destBucket : String)
    (options : DataSyncS3TransferOptions) (prevState : TransferState) (env : Env) :
    hasStage (expectedTrace taskName srcBucket destBucket options prevState env)
        Stage.taskCreate
      = stageAttempted prevState env Stage.taskCreate := by
  unfold expectedTrace traceFromSrc traceFromDest traceFromTask traceFromStart hasStage
    policyTraceEntry
  split_ifs <;> simp_all

lemma hasStage_expectedTrace_start (taskName srcBucket destBucket : String)
    (options : DataSyncS3TransferOptions) (prevState : TransferState) (env : Env) :
    hasStage (expectedTrace taskName srcBucket destBucket options prevState env)
        Stage.taskStart
      = stageAttempted prevState env Stage.taskStart := by
  unfold expectedTrace traceFromSrc traceFromDest traceFromTask traceFromStart hasStage
    policyTraceEntry
  split_ifs <;> simp_all

lemma expectedTrace_stage_cases (taskName srcBucket destBucket : String)
    (options : DataSyncS3TransferOptions) (prevState : TransferState) (env : Env)
    (t : TraceEntry)
    (ht : t ∈ expectedTrace taskName srcBucket destBucket options prevState env) :
    t = policyTraceEntry srcBucket destBucket options
    ∨ (stageAttempted prevState env .srcLocation = true ∧ t.stage = Stage.srcLocation)
    ∨ (stageAttempted prevState env .destLocation = true ∧ t.stage = Stage.destLocation)
    ∨ (stageAttempted prevState env .taskCreate = true ∧ t.stage = Stage.taskCreate)
    ∨ (stageAttempted prevState env .taskStart = true ∧ t.stage = Stage.taskStart) := by
  unfold expectedTrace traceFromSrc traceFromDest traceFromTask traceFromStart at ht
  rcases List.mem_cons.mp ht with rfl | ht2
  · exact Or.inl rfl
  · rcases List.mem_append.mp ht2 with hA | ht3
    · obtain ⟨hb, rfl⟩ := mem_ite_entry hA
      exact Or.inr (Or.inl ⟨hb, rfl⟩)
    · rcases List.mem_append.mp ht3 with hB | ht4
      · obtain ⟨hb, rfl⟩ := mem_ite_entry hB
        exact Or.inr (Or.inr (Or.inl ⟨hb, rfl⟩))
      · rcases List.mem_append.mp ht4 with hC | hD
        · obtain ⟨hb, rfl⟩ := mem_ite_entry hC
          exact Or.inr (Or.inr (Or.inr (Or.inl ⟨hb, rfl⟩)))
        · obtain ⟨hb, rfl⟩ := mem_ite_entry hD
          exact Or.inr (Or.inr (Or.inr (Or.inr ⟨hb, rfl⟩)))

/-- C6: Prefix invariant of `TransferState`: for every input, including an
arbitrary (possibly non-contiguous) prior state, the state returned by the
pipeline has its populated identifiers forming a contiguous block at the
front of the fixed order source-location-id, destination-location-id,
task-id, task-execution-id; a later identifier is never populated unless
all earlier ones are. -/
theorem transferState_contiguous (taskName srcBucket destBucket : String)
    (options : DataSyncS3TransferOptions) (env : Env) (prevState : TransferState) :
    contiguousState
      (execDataSyncS3Transfer taskName srcBucket destBucket options env prevState).result
      = true := by
  rw [execDataSyncS3Transfer_char]
  exact expectedResult_contiguous prevState env

/-- C4: Conditional policy targeting: every run performs exactly one
bucket-policy update; when the initiating side is the source account it
targets the destination bucket through the destination-account S3 client,
and when the initiating side is the destination account it targets the
source bucket through the source-account S3 client. -/
theorem conditional_policy_targeting (taskName srcBucket destBucket : String)
    (options : DataSyncS3TransferOptions) (env : Env) (prevState : TransferState) :
    (policyCalls
      (execDataSyncS3Transfer taskName srcBucket destBucket options env prevState).trace).length
        = 1
    ∧ (options.initiatingAccount = "source" →
        policyCalls
          (execDataSyncS3Transfer taskName srcBucket destBucket options env prevState).trace
          = [⟨Stage.policyUpdate,
              Call.updateBucketPolicy destBucket options.dataSyncPrincipal
                options.dataSyncRole Client.destS3Client⟩])
    ∧ (options.initiatingAccount = "destination" →
        policyCalls
          (execDataSyncS3Transfer taskName srcBucket destBucket options env prevState).trace
          = [⟨Stage.policyUpdate,
              Call.updateBucketPolicy srcBucket options.dataSyncPrincipal
                options.dataSyncRole Client.srcS3Client⟩]) := by
  rw [execDataSyncS3Transfer_char]
  rw [policyCalls_expectedTrace]
  refine ⟨rfl, ?_, ?_⟩
  · intro h
    unfold policyTraceEntry
    rw [h, if_pos (by decide)]
  · intro h
    unfold policyTraceEntry
    rw [h, if_neg (by decide)]

theorem conditional_policy_targeting_witness :
    policyCalls (execDataSyncS3Transfer "t" "a" "b" ⟨"source", "lg", "p", "r"⟩
        ⟨true, CallOutcome.ok (some "L1"), CallOutcome.ok (some "L2"),
         CallOutcome.ok (some "T"), CallOutcome.ok (some "E")⟩ {}).trace
      = [⟨Stage.policyUpdate, Call.updateBucketPolicy "b" "p" "r" Client.destS3Client⟩] :=
  (conditional_policy_targeting "t" "a" "b" ⟨"source", "lg", "p", "r"⟩
    ⟨true, CallOutcome.ok (some "L1"), CallOutcome.ok (some "L2"),
     CallOutcome.ok (some "T"), CallOutcome.ok (some "E")⟩ {}).2.1 rfl

/-- C3: Strict ordering: the destination-location stage is never attempted
before the source-location stage has completed (succeeded, or been skipped
via a prior identifier); the task-create stage is never attempted before
both location stages have completed; and the task-start stage is never
attempted before the task-create stage has completed. -/
theorem strict_stage_ordering (taskName srcBucket destBucket : String)
    (options : DataSyncS3TransferOptions) (env : Env) (prevState : TransferState) :
    (hasStage
        (execDataSyncS3Transfer taskName srcBucket destBucket options env prevState).trace
        Stage.destLocation = true →
      stageCompleted prevState env Stage.srcLocation = true)
    ∧ (hasStage
        (execDataSyncS3Transfer taskName srcBucket destBucket options env prevState).trace
        Stage.taskCreate = true →
      stageCompleted prevState env Stage.srcLocation = true
      ∧ stageCompleted prevState env Stage.destLocation = true)
    ∧ (hasStage
        (execDataSyncS3Transfer taskName srcBucket destBucket options env prevState).trace
        Stage.taskStart = true →
      stageCompleted prevState env Stage.taskCreate = true) := by
  rw [execDataSyncS3Transfer_char]
  rw [hasStage_expectedTrace_dest, hasStage_expectedTrace_task, hasStage_expectedTrace_start]
  refine ⟨?_, ?_, ?_⟩
  · intro h
    simp only [stageAttempted, Bool.and_eq_true] at h
    have h2 := h.1
    simp only [reaches, Bool.and_eq_true] at h2
    exact h2.2
  · intro h
    simp only [stageAttempted, Bool.and_eq_true] at h
    have h2 := h.1
    simp only [reaches, Bool.and_eq_true] at h2
    exact ⟨h2.1.2, h2.2⟩
  · intro h
    simp only [stageAttempted, Bool.and_eq_true] at h
    have h2 := h.1
    simp only [reaches, Bool.and_eq_true] at h2
    exact h2.2

theorem strict_stage_ordering_witness :
    stageCompleted {}
      ⟨true, CallOutcome.ok (some "L1"), CallOutcome.ok (some "L2"),
       CallOutcome.ok (some "T"), CallOutcome.ok (some "E")⟩ Stage.srcLocation = true :=
  (strict_stage_ordering "t" "a" "b" ⟨"source", "lg", "p", "r"⟩
    ⟨true, CallOutcome.ok (some "L1"), CallOutcome.ok (some "L2"),
     CallOutcome.ok (some "T"), CallOutcome.ok (some "E")⟩ {}).1 (by decide)

/-- C5: Task-start is never skipped: on any resume whose prior state has
completed every earlier stage — in particular a complete prior state whose
task-execution id is already populated — the pipeline still invokes the
start-task collaborator; when that call returns a valid execution ARN, the
run succeeds with the prior source-location, destination-location and task
identifiers reused and the execution id replaced by the new one. -/
theorem task_start_never_skipped (taskName srcBucket destBucket : String)
    (options : DataSyncS3TransferOptions) (env : Env) (prevState : TransferState)
    (hp : env.policyUpdate = true)
    (h1 : truthy prevState.dataSyncSrcLocation = true)
    (h2 : truthy prevState.dataSyncDestLocation = true)
    (h3 : truthy prevState.dataSyncTask = true)
    (h4 : truthy prevState.dataSyncTaskExec = true) :
    hasStage
      (execDataSyncS3Transfer taskName srcBucket destBucket options env prevState).trace
      Stage.taskStart = true
    ∧ ∀ v, env.taskStart = CallOutcome.ok v → truthy v = true →
        (execDataSyncS3Transfer taskName srcBucket destBucket options env prevState).result
          = ⟨prevState.dataSyncSrcLocation, prevState.dataSyncDestLocation,
             prevState.dataSyncTask, v⟩
        ∧ (execDataSyncS3Transfer taskName srcBucket destBucket options env prevState).error
          = none := by
  have hcP : stageCompleted prevState env Stage.policyUpdate = true := by
    simp [stageCompleted, stageSkipped, outcomeFails, hp]
  have hcS : stageCompleted prevState env Stage.srcLocation = true := by
    simp [stageCompleted, stageSkipped, h1]
  have hcD : stageCompleted prevState env Stage.destLocation = true := by
    simp [stageCompleted, stageSkipped, h2]
  have hcT : stageCompleted prevState env Stage.taskCreate = true := by
    simp [stageCompleted, stageSkipped, h3]
  have hrX : reaches prevState env Stage.taskStart = true := by
    simp [reaches, hcP, hcS, hcD, hcT]
  have haX : stageAttempted prevState env Stage.taskStart = true := by
    simp [stageAttempted, hrX, stageSkipped]
  constructor
  · rw [execDataSyncS3Transfer_char, hasStage_expectedTrace_start]
    exact haX
  · intro v hov htv
    rw [execDataSyncS3Transfer_char]
    constructor
    · simp [expectedResult, reaches, hcP, hcS, hcD, hcT, stageValue, stageSkipped,
        h1, h2, h3, stateField, idStageOutcome, hov, htv]
    · have f5 : stageFails prevState env .taskStart = false := by
        simp [stageFails, stageSkipped, outcomeFails, callFails, hov, htv]
      simp [expectedError, firstFailingStage_of_completed4 _ _
        (stageFails_eq_false_of_completed _ _ _ hcP)
        (stageFails_eq_false_of_completed _ _ _ hcS)
        (stageFails_eq_false_of_completed _ _ _ hcD)
        (stageFails_eq_false_of_completed _ _ _ hcT), f5]

theorem task_start_never_skipped_witness :
    hasStage (execDataSyncS3Transfer "t" "a" "b" ⟨"source", "lg", "p", "r"⟩
        ⟨true, CallOutcome.thrown, CallOutcome.thrown, CallOutcome.thrown,
         CallOutcome.ok (some "E2")⟩
        ⟨some "l1", some "l2", some "t1", some "e1"⟩).trace Stage.taskStart = true
    ∧ (execDataSyncS3Transfer "t" "a" "b" ⟨"source", "lg", "p", "r"⟩
        ⟨true, CallOutcome.thrown, CallOutcome.thrown, CallOutcome.thrown,
         CallOutcome.ok (some "E2")⟩
        ⟨some "l1", some "l2", some "t1", some "e1"⟩).result
        = ⟨some "l1", some "l2", some "t1", some "E2"⟩ := by
  have h := task_start_never_skipped "t" "a" "b" ⟨"source", "lg", "p", "r"⟩
    ⟨true, CallOutcome.thrown, CallOutcome.thrown, CallOutcome.thrown,
     CallOutcome.ok (some "E2")⟩
    ⟨some "l1", some "l2", some "t1", some "e1"⟩
    rfl (by decide) (by decide) (by decide) (by decide)
  exact ⟨h.1, (h.2 (some "E2") rfl (by decide)).1⟩

/-- C2: Halt-on-failure: whenever a run has a first failing stage `s`
(stage order policy-update < source-location < destination-location <
task-create < task-start, positions 1..5), the returned error tags exactly
stage `s`, no call of any later stage appears in the trace, and the
returned state holds exactly the identifiers of the stages strictly before
`s` (the identifier-producing stages sit at positions 2..5). -/
theorem halt_on_failure (taskName srcBucket destBucket : String)
    (options : DataSyncS3TransferOptions) (env : Env) (prevState : TransferState) (s : Stage)
    (h : firstFailingStage prevState env = some s) :
    (execDataSyncS3Transfer taskName srcBucket destBucket options env prevState).error.map
        PipelineError.stage = some s
    ∧ (∀ t ∈ (execDataSyncS3Transfer taskName srcBucket destBucket options env
          prevState).trace, stageIdx t.stage ≤ stageIdx s)
    ∧ truthy (execDataSyncS3Transfer taskName srcBucket destBucket options env
        prevState).result.dataSyncSrcLocation = decide (3 ≤ stageIdx s)
    ∧ truthy (execDataSyncS3Transfer taskName srcBucket destBucket options env
        prevState).result.dataSyncDestLocation = decide (4 ≤ stageIdx s)
    ∧ truthy (execDataSyncS3Transfer taskName srcBucket destBucket options env
        prevState).result.dataSyncTask = decide (5 ≤ stageIdx s)
    ∧ truthy (execDataSyncS3Transfer taskName srcBucket destBucket options env
        prevState).result.dataSyncTaskExec = false := by
  obtain ⟨hfs, hcomp⟩ := firstFailingStage_inv _ _ _ h
  rw [execDataSyncS3Transfer_char]
  have herr : expectedError prevState env = some (stageError env s) := by
    simp [expectedError, h]
  have hsv := stageValue_none_of_fails _ _ _ hfs
  cases s
  case policyUpdate =>
    have hcf : stageCompleted prevState env Stage.policyUpdate = false := by
      rw [stageCompleted_eq_not_fails, hfs]
      rfl
    have hrS : reaches prevState env Stage.srcLocation = false := by simp [reaches, hcf]
    have hrD : reaches prevState env Stage.destLocation = false := by simp [reaches, hcf]
    have hrT : reaches prevState env Stage.taskCreate = false := by simp [reaches, hcf]
    have hrX : reaches prevState env Stage.taskStart = false := by simp [reaches, hcf]
    have haS : stageAttempted prevState env Stage.srcLocation = false := by
      simp [stageAttempted, hrS]
    have haD : stageAttempted prevState env Stage.destLocation = false := by
      simp [stageAttempted, hrD]
    have haT : stageAttempted prevState env Stage.taskCreate = false := by
      simp [stageAttempted, hrT]
    have haX : stageAttempted prevState env Stage.taskStart = false := by
      simp [stageAttempted, hrX]
    refine ⟨by simp [herr, stageError_stage], ?_, ?_, ?_, ?_, ?_⟩
    · intro t ht
      rcases expectedTrace_stage_cases _ _ _ _ _ _ _ ht with
        rfl | ⟨hb, hst⟩ | ⟨hb, hst⟩ | ⟨hb, hst⟩ | ⟨hb, hst⟩
      · rw [policyTraceEntry_stage]
      · exact absurd hb (by simp [haS])
      · exact absurd hb (by simp [haD])
      · exact absurd hb (by simp [haT])
      · exact absurd hb (by simp [haX])
    · simp [expectedResult, hrS, truthy, stageIdx]
    · simp [expectedResult, hrD, truthy, stageIdx]
    · simp [expectedResult, hrT, truthy, stageIdx]
    · simp [expectedResult, hrX, truthy, stageIdx]
  case srcLocation =>
    have hcP := hcomp Stage.policyUpdate (by decide)
    have hcf : stageCompleted prevState env Stage.srcLocation = false := by
      rw [stageCompleted_eq_not_fails, hfs]
      rfl
    have hrS : reaches prevState env Stage.srcLocation = true := by simp [reaches, hcP]
    have hrD : reaches prevState env Stage.destLocation = false := by simp [reaches, hcf]
    have hrT : reaches prevState env Stage.taskCreate = false := by simp [reaches, hcf]
    have hrX : reaches prevState env Stage.taskStart = false := by simp [reaches, hcf]
    have haD : stageAttempted prevState env Stage.destLocation = false := by
      simp [stageAttempted, hrD]
    have haT : stageAttempted prevState env Stage.taskCreate = false := by
      simp [stageAttempted, hrT]
    have haX : stageAttempted prevState env Stage.taskStart = false := by
      simp [stageAttempted, hrX]
    refine ⟨by simp [herr, stageError_stage], ?_, ?_, ?_, ?_, ?_⟩
    · intro t ht
      rcases expectedTrace_stage_cases _ _ _ _ _ _ _ ht with
        rfl | ⟨hb, hst⟩ | ⟨hb, hst⟩ | ⟨hb, hst⟩ | ⟨hb, hst⟩
      · rw [policyTraceEntry_stage]
        decide
      · rw [hst]
      · exact absurd hb (by simp [haD])
      · exact absurd hb (by simp [haT])
      · exact absurd hb (by simp [haX])
    · simp [expectedResult, hrS, hsv, truthy, stageIdx]
    · simp [expectedResult, hrD, truthy, stageIdx]
    · simp [expectedResult, hrT, truthy, stageIdx]
    · simp [expectedResult, hrX, truthy, stageIdx]
  case destLocation =>
    have hcP := hcomp Stage.policyUpdate (by decide)
    have hcS := hcomp Stage.srcLocation (by decide)
    have hcf : stageCompleted prevState env Stage.destLocation = false := by
      rw [stageCompleted_eq_not_fails, hfs]
      rfl
    have hrS : reaches prevState env Stage.srcLocation = true := by simp [reaches, hcP]
    have hrD : reaches prevState env Stage.destLocation = true := by simp [reaches, hcP, hcS]
    have hrT : reaches prevState env Stage.taskCreate = false := by simp [reaches, hcf]
    have hrX : reaches prevState env Stage.taskStart = false := by simp [reaches, hcf]
    have haT : stageAttempted prevState env Stage.taskCreate = false := by
      simp [stageAttempted, hrT]
    have haX : stageAttempted prevState env Stage.taskStart = false := by
      simp [stageAttempted, hrX]
    refine ⟨by simp [herr, stageError_stage], ?_, ?_, ?_, ?_, ?_⟩
    · intro t ht
      rcases expectedTrace_stage_cases _ _ _ _ _ _ _ ht with
        rfl | ⟨hb, hst⟩ | ⟨hb, hst⟩ | ⟨hb, hst⟩ | ⟨hb, hst⟩
      · rw [policyTraceEntry_stage]
        decide
      · rw [hst]
        decide
      · rw [hst]
      · exact absurd hb (by simp [haT])
      · exact absurd hb (by simp [haX])
    · simp [expectedResult, hrS, truthy_stageValue_src prevState env hcS, stageIdx]
    · simp [expectedResult, hrD, hsv, truthy, stageIdx]
    · simp [expectedResult, hrT, truthy, stageIdx]
    · simp [expectedResult, hrX, truthy, stageIdx]
  case taskCreate =>
    have hcP := hcomp Stage.policyUpdate (by decide)
    have hcS := hcomp Stage.srcLocation (by decide)
    have hcD := hcomp Stage.destLocation (by decide)
    have hcf : stageCompleted prevState env Stage.taskCreate = false := by
      rw [stageCompleted_eq_not_fails, hfs]
      rfl
    have hrS : reaches prevState env Stage.srcLocation = true := by simp [reaches, hcP]
    have hrD : reaches prevState env Stage.destLocation = true := by simp [reaches, hcP, hcS]
    have hrT : reaches prevState env Stage.taskCreate = true := by
      simp [reaches, hcP, hcS, hcD]
    have hrX : reaches prevState env Stage.taskStart = false := by simp [reaches, hcf]
    have haX : stageAttempted prevState env Stage.taskStart = false := by
      simp [stageAttempted, hrX]
    refine ⟨by simp [herr, stageError_stage], ?_, ?_, ?_, ?_, ?_⟩
    · intro t ht
      rcases expectedTrace_stage_cases _ _ _ _ _ _ _ ht with
        rfl | ⟨hb, hst⟩ | ⟨hb, hst⟩ | ⟨hb, hst⟩ | ⟨hb, hst⟩
      · rw [policyTraceEntry_stage]
        decide
      · rw [hst]
        decide
      · rw [hst]
        decide
      · rw [hst]
      · exact absurd hb (by simp [haX])
    · simp [expectedResult, hrS, truthy_stageValue_src prevState env hcS, stageIdx]
    · simp [expectedResult, hrD, truthy_stageValue_dest prevState env hcD, stageIdx]
    · simp [expectedResult, hrT, hsv, truthy, stageIdx]
    · simp [expectedResult, hrX, truthy, stageIdx]
  case taskStart =>
    have hcP := hcomp Stage.policyUpdate (by decide)
    have hcS := hcomp Stage.srcLocation (by decide)
    have hcD := hcomp Stage.destLocation (by decide)
    have hcT := hcomp Stage.taskCreate (by decide)
    have hrS : reaches prevState env Stage.srcLocation = true := by simp [reaches, hcP]
    have hrD : reaches prevState env Stage.destLocation = true := by simp [reaches, hcP, hcS]
    have hrT : reaches prevState env Stage.taskCreate = true := by
      simp [reaches, hcP, hcS, hcD]
    have hrX : reaches prevState env Stage.taskStart = true := by
      simp [reaches, hcP, hcS, hcD, hcT]
    refine ⟨by simp [herr, stageError_stage], ?_, ?_, ?_, ?_, ?_⟩
    · intro t ht
      rcases expectedTrace_stage_cases _ _ _ _ _ _ _ ht with
        rfl | ⟨hb, hst⟩ | ⟨hb, hst⟩ | ⟨hb, hst⟩ | ⟨hb, hst⟩
      · rw [policyTraceEntry_stage]
        decide
      all_goals rw [hst]
      all_goals decide
    · simp [expectedResult, hrS, truthy_stageValue_src prevState env hcS, stageIdx]
    · simp [expectedResult, hrD, truthy_stageValue_dest prevState env hcD, stageIdx]
    · simp [expectedResult, hrT, truthy_stageValue_task prevState env hcT, stageIdx]
    · simp [expectedResult, hrX, hsv, truthy, stageIdx]

theorem halt_on_failure_witness :
    firstFailingStage (⟨some "l1", none, none, none⟩ : TransferState)
        ⟨true, CallOutcome.thrown, CallOutcome.thrown, CallOutcome.thrown, CallOutcome.thrown⟩
      = some Stage.destLocation
    ∧ (execDataSyncS3Transfer "t" "a" "b" ⟨"source", "lg", "p", "r"⟩
        ⟨true, CallOutcome.thrown, CallOutcome.thrown, CallOutcome.thrown, CallOutcome.thrown⟩
        ⟨some "l1", none, none, none⟩).error.map PipelineError.stage
      = some Stage.destLocation
    ∧ truthy (execDataSyncS3Transfer "t" "a" "b" ⟨"source", "lg", "p", "r"⟩
        ⟨true, CallOutcome.thrown, CallOutcome.thrown, CallOutcome.thrown, CallOutcome.thrown⟩
        ⟨some "l1", none, none, none⟩).result.dataSyncSrcLocation = true := by
  have h := halt_on_failure "t" "a" "b" ⟨"source", "lg", "p", "r"⟩
    ⟨true, CallOutcome.thrown, CallOutcome.thrown, CallOutcome.thrown, CallOutcome.thrown⟩
    ⟨some "l1", none, none, none⟩ Stage.destLocation (by decide)
  refine ⟨by decide, h.1, ?_⟩
  rw [h.2.2.1]
  decide

/-- C7: Malformed response handling: when an identifier-producing stage is
actually attempted and its collaborator call resolves without a truthy
identifier field, the pipeline returns the malformed-response error tagged
at that stage and records no (empty) identifier for it. -/
theorem malformed_response_handling (taskName srcBucket destBucket : String)
    (options : DataSyncS3TransferOptions) (env : Env) (prevState : TransferState)
    (s : Stage) (v : Option String)
    (hns : s ≠ Stage.policyUpdate)
    (hatt : stageAttempted prevState env s = true)
    (ho : idStageOutcome env s = some (CallOutcome.ok v))
    (hv : truthy v = false) :
    (execDataSyncS3Transfer taskName srcBucket destBucket options env prevState).error
      = some (PipelineError.malformedResponse s)
    ∧ stateField
        (execDataSyncS3Transfer taskName srcBucket destBucket options env prevState).result s
      = none := by
  rw [execDataSyncS3Transfer_char]
  simp only [stageAttempted, Bool.and_eq_true, Bool.not_eq_true'] at hatt
  obtain ⟨hreach, hnskip⟩ := hatt
  have hofail : outcomeFails env s = true := by
    cases s
    · exact absurd rfl hns
    all_goals simp_all [idStageOutcome, outcomeFails, callFails]
  have hfl : stageFails prevState env s = true := by
    simp [stageFails, hnskip, hofail]
  have hsv := stageValue_none_of_fails _ _ _ hfl
  cases s
  case policyUpdate => exact absurd rfl hns
  case srcLocation =>
    have h2 := hreach
    simp only [reaches] at h2
    have fp := stageFails_eq_false_of_completed _ _ _ h2
    have hff := firstFailingStage_src _ _ fp hfl
    refine ⟨by simp [expectedError, hff, stageError, ho], ?_⟩
    simp [stateField, expectedResult, hreach, hsv]
  case destLocation =>
    have h2 := hreach
    simp only [reaches, Bool.and_eq_true] at h2
    have fp := stageFails_eq_false_of_completed _ _ _ h2.1
    have fs := stageFails_eq_false_of_completed _ _ _ h2.2
    have hff := firstFailingStage_dest _ _ fp fs hfl
    refine ⟨by simp [expectedError, hff, stageError, ho], ?_⟩
    simp [stateField, expectedResult, hreach, hsv]
  case taskCreate =>
    have h2 := hreach
    simp only [reaches, Bool.and_eq_true] at h2
    have fp := stageFails_eq_false_of_completed _ _ _ h2.1.1
    have fs := stageFails_eq_false_of_completed _ _ _ h2.1.2
    have fd := stageFails_eq_false_of_completed _ _ _ h2.2
    have hff := firstFailingStage_task _ _ fp fs fd hfl
    refine ⟨by simp [expectedError, hff, stageError, ho], ?_⟩
    simp [stateField, expectedResult, hreach, hsv]
  case taskStart =>
    have h2 := hreach
    simp only [reaches, Bool.and_eq_true] at h2
    have fp := stageFails_eq_false_of_completed _ _ _ h2.1.1.1
    have fs := stageFails_eq_false_of_completed _ _ _ h2.1.1.2
    have fd := stageFails_eq_false_of_completed _ _ _ h2.1.2
    have ft := stageFails_eq_false_of_completed _ _ _ h2.2
    have hff := firstFailingStage_of_completed4 _ _ fp fs fd ft
    refine ⟨by simp [expectedError, hff, hfl, stageError, ho], ?_⟩
    simp [stateField, expectedResult, hreach, hsv]

theorem malformed_response_handling_witness :
    (execDataSyncS3Transfer "t" "a" "b" ⟨"source", "lg", "p", "r"⟩
        ⟨true, CallOutcome.ok (some "L1"), CallOutcome.ok none,
         CallOutcome.thrown, CallOutcome.thrown⟩ {}).error
      = some (PipelineError.malformedResponse Stage.destLocation)
    ∧ stateField (execDataSyncS3Transfer "t" "a" "b" ⟨"source", "lg", "p", "r"⟩
        ⟨true, CallOutcome.ok (some "L1"), CallOutcome.ok none,
         CallOutcome.thrown, CallOutcome.thrown⟩ {}).result Stage.destLocation
      = none :=
  malformed_response_handling "t" "a" "b" ⟨"source", "lg", "p", "r"⟩
    ⟨true, CallOutcome.ok (some "L1"), CallOutcome.ok none,
     CallOutcome.thrown, CallOutcome.thrown⟩ {} Stage.destLocation none
    (by decide) (by decide) rfl (by decide)

/-- C1 counterexample: re-invoking the pipeline with a complete prior
state performs 2 collaborator calls — the unconditional policy update and
the task start — not exactly 1 (task-start only) as the claim states. -/
theorem resume_complete_two_calls :
    ((execDataSyncS3Transfer "t" "a" "b" ⟨"source", "lg", "p", "r"⟩
        ⟨true, CallOutcome.ok (some "L1"), CallOutcome.ok (some "L2"),
         CallOutcome.ok (some "T"), CallOutcome.ok (some "E2")⟩
        ⟨some "l1", some "l2", some "t1", some "e1"⟩).trace.map TraceEntry.stage
      = [Stage.policyUpdate, Stage.taskStart])
    ∧ (execDataSyncS3Transfer "t" "a" "b" ⟨"source", "lg", "p", "r"⟩
        ⟨true, CallOutcome.ok (some "L1"), CallOutcome.ok (some "L2"),
         CallOutcome.ok (some "T"), CallOutcome.ok (some "E2")⟩
        ⟨some "l1", some "l2", some "t1", some "e1"⟩).trace.length ≠ 1 := by
  decide

/-- C1 amended: on a resume in which every pending stage succeeds, the
pipeline makes collaborator calls for the policy-update stage, for exactly
the resumable stages (source-location, destination-location, task-create)
whose identifiers are not populated in the prior state, and for the
task-start stage; the populated stages make zero calls. In particular a
complete prior state yields exactly two calls: policy-update and
task-start. -/
theorem resume_skips_populated_stages (taskName srcBucket destBucket : String)
    (options : DataSyncS3TransferOptions) (env : Env) (prevState : TransferState)
    (hp : env.policyUpdate = true)
    (hcS : stageCompleted prevState env Stage.srcLocation = true)
    (hcD : stageCompleted prevState env Stage.destLocation = true)
    (hcT : stageCompleted prevState env Stage.taskCreate = true) :
    (execDataSyncS3Transfer taskName srcBucket destBucket options env prevState).trace.map
        TraceEntry.stage
      = Stage.policyUpdate
        :: ((if truthy prevState.dataSyncSrcLocation then [] else [Stage.srcLocation])
        ++ ((if truthy prevState.dataSyncDestLocation then [] else [Stage.destLocation])
        ++ ((if truthy prevState.dataSyncTask then [] else [Stage.taskCreate])
        ++ [Stage.taskStart]))) := by
  rw [execDataSyncS3Transfer_char]
  have hcP : stageCompleted prevState env Stage.policyUpdate = true := by
    simp [stageCompleted, stageSkipped, outcomeFails, hp]
  have hrS : reaches prevState env Stage.srcLocation = true := by simp [reaches, hcP]
  have hrD : reaches prevState env Stage.destLocation = true := by simp [reaches, hcP, hcS]
  have hrT : reaches prevState env Stage.taskCreate = true := by
    simp [reaches, hcP, hcS, hcD]
  have hrX : reaches prevState env Stage.taskStart = true := by
    simp [reaches, hcP, hcS, hcD, hcT]
  by_cases s1 : truthy prevState.dataSyncSrcLocation = true <;>
    by_cases s2 : truthy prevState.dataSyncDestLocation = true <;>
      by_cases s3 : truthy prevState.dataSyncTask = true <;>
        simp [expectedTrace, traceFromSrc, traceFromDest, traceFromTask, traceFromStart,
          stageAttempted, hrS, hrD, hrT, hrX, stageSkipped, s1, s2, s3,
          policyTraceEntry_stage]

theorem resume_skips_populated_stages_witness :
    (execDataSyncS3Transfer "t" "a" "b" ⟨"source", "lg", "p", "r"⟩
        ⟨true, CallOutcome.ok (some "L1"), CallOutcome.ok (some "L2"),
         CallOutcome.ok (some "T"), CallOutcome.ok (some "E2")⟩
        ⟨some "l1", none, none, none⟩).trace.map TraceEntry.stage
      = [Stage.policyUpdate, Stage.destLocation, Stage.taskCreate, Stage.taskStart] := by
  have h := resume_skips_populated_stages "t" "a" "b" ⟨"source", "lg", "p", "r"⟩
    ⟨true, CallOutcome.ok (some "L1"), CallOutcome.ok (some "L2"),
     CallOutcome.ok (some "T"), CallOutcome.ok (some "E2")⟩
    ⟨some "l1", none, none, none⟩ rfl (by decide) (by decide) (by decide)
  simpa using h

/-- The transfer options of the batch-driver revision in src/index.js
(src-prefixed field names). -/
structure BatchTransferOptions where
  srcCloudWatchLogGroup : String
  srcDataSyncPrincipal : String
  srcDataSyncRole : String
deriving DecidableEq, Repr

/-- Environment for one `executeSingleS3DataSyncTransfer` run: outcomes of
its six collaborator calls. Bucket creation and the policy update are bare
success flags because their responses are not inspected. -/
structure SingleEnv where
  createBucket : Bool
  updateDestBucketPolicy : Bool
  srcLoc : CallOutcome
  destLoc : CallOutcome
  taskCreate : CallOutcome
  taskStart : CallOutcome
deriving DecidableEq, Repr

/-- `executeSingleS3DataSyncTransfer` of src/index.js: create the
destination bucket, update its policy, then the four DataSync stages in
order; on any failure the error is only logged and the partial output
accumulated so far is returned — the returned value carries no error. -/
def executeSingleS3DataSyncTransfer (taskName srcBucket destBucket : String)
    (options : BatchTransferOptions) (env : SingleEnv) : TransferState :=
  if !env.createBucket then {}
  else if !env.updateDestBucketPolicy then {}
  else
    match env.srcLoc with
    | CallOutcome.thrown => {}
    | CallOutcome.ok v1 =>
      if !truthy v1 then {}
      else
        match env.destLoc with
        | CallOutcome.thrown => ⟨v1, none, none, none⟩
        | CallOutcome.ok v2 =>
          if !truthy v2 then ⟨v1, none, none, none⟩
          else
            match env.taskCreate with
            | CallOutcome.thrown => ⟨v1, v2, none, none⟩
            | CallOutcome.ok v3 =>
              if !truthy v3 then ⟨v1, v2, none, none⟩
              else
                match env.taskStart with
                | CallOutcome.thrown => ⟨v1, v2, v3, none⟩
                | CallOutcome.ok v4 =>
                  if !truthy v4 then ⟨v1, v2, v3, none⟩
                  else ⟨v1, v2, v3, v4⟩

/-- One entry of the `transferTasks` worklist of
`executeS3DataSyncTransfer`. -/
structure TransferTaskInput where
  srcBucket : String
  destBucket : String
  taskName : String
deriving DecidableEq, Repr

/-- The `for` loop of `executeS3DataSyncTransfer`: process the remaining
transfer tasks in order; the item at absolute position `i` runs against its
own collaborator outcomes `envs i`. -/
def executeS3DataSyncTransferGo (options : BatchTransferOptions)
    (envs : Nat → SingleEnv) : List TransferTaskInput → Nat → List TransferState
  | [], _ => []
  | task :: rest, i =>
    executeSingleS3DataSyncTransfer task.taskName task.srcBucket task.destBucket options
        (envs i)
      :: executeS3DataSyncTransferGo options envs rest (i + 1)

/-- `executeS3DataSyncTransfer` of src/index.js: iterate the given transfer
tasks in order, yielding one result per item. -/
def executeS3DataSyncTransfer (transferTasks : List TransferTaskInput)
    (options : BatchTransferOptions) (envs : Nat → SingleEnv) : List TransferState :=
  executeS3DataSyncTransferGo options envs transferTasks 0

lemma executeS3DataSyncTransferGo_length (options : BatchTransferOptions)
    (envs : Nat → SingleEnv) (tasks : List TransferTaskInput) (i : Nat) :
    (executeS3DataSyncTransferGo options envs tasks i).length = tasks.length := by
  induction tasks generalizing i with
  | nil => rfl
  | cons t rest ih => simp [executeS3DataSyncTransferGo, ih]

lemma executeS3DataSyncTransferGo_get (options : BatchTransferOptions)
    (envs : Nat → SingleEnv) (tasks : List TransferTaskInput) (k i : Nat) :
    (executeS3DataSyncTransferGo options envs tasks k).get? i
      = (tasks.get? i).map (fun task =>
          executeSingleS3DataSyncTransfer task.taskName task.srcBucket task.destBucket
            options (envs (k + i))) := by
  induction tasks generalizing k i with
  | nil => simp [executeS3DataSyncTransferGo]
  | cons t rest ih =>
    cases i with
    | zero => simp [executeS3DataSyncTransferGo]
    | succ n =>
      simp only [executeS3DataSyncTransferGo, List.get?_cons_succ]
      rw [ih]
      have harith : k + 1 + n = k + (n + 1) := by omega
      rw [harith]

/-- C8 counterexample: a one-item batch whose item fails at bucket
creation, and the same batch whose item instead fails at source-location
registration, yield exactly the same result list. The yielded value
therefore cannot carry the item's own error; it only carries the
partial state. -/
theorem yielded_result_lacks_error :
    executeS3DataSyncTransfer [⟨"a", "b", "t"⟩] ⟨"lg", "p", "r"⟩
        (fun _ => ⟨false, true, CallOutcome.ok (some "L1"), CallOutcome.ok (some "L2"),
          CallOutcome.ok (some "T"), CallOutcome.ok (some "E")⟩)
      = executeS3DataSyncTransfer [⟨"a", "b", "t"⟩] ⟨"lg", "p", "r"⟩
        (fun _ => ⟨true, true, CallOutcome.thrown, CallOutcome.ok (some "L2"),
          CallOutcome.ok (some "T"), CallOutcome.ok (some "E")⟩) := by
  decide

/-- C8 amended: the batch driver yields exactly one result per input item,
in input order; item i's result is exactly the single-item run on item i
under that item's own collaborator outcomes, so a failure while processing
item i does not prevent or affect item i+1, and nothing is aggregated
across items. Each yielded result carries that item's own partial or
complete state; the item's error is logged, not carried in the yielded
value. -/
theorem batch_driver_independent_results (transferTasks : List TransferTaskInput)
    (options : BatchTransferOptions) (envs : Nat → SingleEnv) :
    (executeS3DataSyncTransfer transferTasks options envs).length = transferTasks.length
    ∧ ∀ i : Nat,
        (executeS3DataSyncTransfer transferTasks options envs).get? i
          = (transferTasks.get? i).map (fun task =>
              executeSingleS3DataSyncTransfer task.taskName task.srcBucket task.destBucket
                options (envs i)) := by
  constructor
  · exact executeS3DataSyncTransferGo_length options envs transferTasks 0
  · intro i
    rw [executeS3DataSyncTransfer, executeS3DataSyncTransferGo_get]
    simp

theorem batch_driver_independent_results_witness :
    (executeS3DataSyncTransfer [⟨"a1", "b1", "t1"⟩, ⟨"a2", "b2", "t2"⟩] ⟨"lg", "p", "r"⟩
        (fun i => if i = 0 then
          ⟨true, true, CallOutcome.thrown, CallOutcome.thrown, CallOutcome.thrown,
           CallOutcome.thrown⟩
        else
          ⟨true, true, CallOutcome.ok (some "L1"), CallOutcome.ok (some "L2"),
           CallOutcome.ok (some "T"), CallOutcome.ok (some "E")⟩)).get? 1
      = some ⟨some "L1", some "L2", some "T", some "E"⟩ := by
  have h := (batch_driver_independent_results
    [⟨"a1", "b1", "t1"⟩, ⟨"a2", "b2", "t2"⟩] ⟨"lg", "p", "r"⟩
    (fun i => if i = 0 then
      ⟨true, true, CallOutcome.thrown, CallOutcome.thrown, CallOutcome.thrown,
       CallOutcome.thrown⟩
    else
      ⟨true, true, CallOutcome.ok (some "L1"), CallOutcome.ok (some "L2"),
       CallOutcome.ok (some "T"), CallOutcome.ok (some "E")⟩)).2 1
  rw [h]
  decide

/-- `checkIncompleteTransfer` of the source: collect the names of the
missing resources in the fixed order, then return `null` when nothing is
missing, or an error whose cause lists the missing resources. The error is
modelled by its cause string. -/
def checkIncompleteTransfer (transferOutput : TransferState) : Option String :=
  let missing : List String :=
    (((if !truthy transferOutput.dataSyncSrcLocation then ["source location"] else [])
      ++ (if !truthy transferOutput.dataSyncDestLocation then ["destination location"] else []))
      ++ (if !truthy transferOutput.dataSyncTask then ["task"] else []))
      ++ (if !truthy transferOutput.dataSyncTaskExec then ["task execution"] else [])
  if missing.length == 0 then none
  else some ("DataSync resources missing: " ++ String.intercalate ", " missing ++ ".")

/-- The resource names the specification says the cause must list: exactly
the missing ones, in the fixed order source location, destination location,
task, task execution. -/
def missingResources (t : TransferState) : List String :=
  ([("source location", t.dataSyncSrcLocation),
    ("destination location", t.dataSyncDestLocation),
    ("task", t.dataSyncTask),
    ("task execution", t.dataSyncTaskExec)].filter (fun p => !truthy p.2)).map Prod.fst

/-- C9: `checkIncompleteTransfer` returns `null` iff all four identifiers
are present and non-empty; otherwise it returns an error whose cause lists
exactly the missing resources, in the fixed order source location,
destination location, task, task execution. -/
theorem checkIncompleteTransfer_spec (t : TransferState) :
    (checkIncompleteTransfer t = none ↔
      (truthy t.dataSyncSrcLocation = true ∧ truthy t.dataSyncDestLocation = true
        ∧ truthy t.dataSyncTask = true ∧ truthy t.dataSyncTaskExec = true))
    ∧ (checkIncompleteTransfer t ≠ none →
        checkIncompleteTransfer t
          = some ("DataSync resources missing: "
              ++ String.intercalate ", " (missingResources t) ++ ".")) := by
  rcases hA : truthy t.dataSyncSrcLocation <;>
    rcases hB : truthy t.dataSyncDestLocation <;>
      rcases hC : truthy t.dataSyncTask <;>
        rcases hD : truthy t.dataSyncTaskExec <;>
          simp [checkIncompleteTransfer, missingResources, hA, hB, hC, hD]

theorem checkIncompleteTransfer_spec_witness :
    checkIncompleteTransfer (⟨some "s", none, some "t", none⟩ : TransferState)
      = some "DataSync resources missing: destination location, task execution." := by
  have h := (checkIncompleteTransfer_spec ⟨some "s", none, some "t", none⟩).2 (by decide)
  rw [h]
  decide

/-- The DataSync-client construction of `initDataSyncS3Transfer` of the
resumable revision: the client is built from the source-account config
exactly when `initiatingAccount === 'source'`, and from the
destination-account config for every other value. -/
def dataSyncClientConfig {α : Type} (srcAwsConfig destAwsConfig : α)
    (options : DataSyncS3TransferOptions) : α :=
  if options.initiatingAccount == "source" then srcAwsConfig else destAwsConfig

/-- C10: the initiating-side flag is not validated: any `initiatingAccount`
other than the exact string "source" (a misspelling, different case, or
anything else) is treated as destination-initiated — the DataSync client is
built from the destination-account config and the single policy update of a
run targets the source bucket through the source-account S3 client. -/
theorem initiating_account_not_validated {α : Type} (srcAwsConfig destAwsConfig : α)
    (taskName srcBucket destBucket : String) (options : DataSyncS3TransferOptions)
    (env : Env) (prevState : TransferState)
    (h : options.initiatingAccount ≠ "source") :
    dataSyncClientConfig srcAwsConfig destAwsConfig options = destAwsConfig
    ∧ policyCalls
        (execDataSyncS3Transfer taskName srcBucket destBucket options env prevState).trace
        = [⟨Stage.policyUpdate,
            Call.updateBucketPolicy srcBucket options.dataSyncPrincipal
              options.dataSyncRole Client.srcS3Client⟩] := by
  have hb : (options.initiatingAccount == "source") = false := by
    simp [h]
  constructor
  · simp [dataSyncClientConfig, hb]
  · rw [execDataSyncS3Transfer_char, policyCalls_expectedTrace]
    unfold policyTraceEntry
    rw [hb]
    simp

theorem initiating_account_not_validated_witness :
    dataSyncClientConfig 1 2 (⟨"Source", "lg", "p", "r"⟩ : DataSyncS3TransferOptions) = 2
    ∧ policyCalls (execDataSyncS3Transfer "t" "a" "b" ⟨"Source", "lg", "p", "r"⟩
        ⟨true, CallOutcome.thrown, CallOutcome.thrown, CallOutcome.thrown, CallOutcome.thrown⟩
        {}).trace
      = [⟨Stage.policyUpdate, Call.updateBucketPolicy "a" "p" "r" Client.srcS3Client⟩] :=
  initiating_account_not_validated 1 2 "t" "a" "b" ⟨"Source", "lg", "p", "r"⟩
    ⟨true, CallOutcome.thrown, CallOutcome.thrown, CallOutcome.thrown, CallOutcome.thrown⟩
    {} (by decide)
